import Mathlib

/-!
Verification of the cluster configuration synchronization subsystem
(`server/core/configmanager.cc`).

The development shallowly embeds `ConfigManager`: snapshots are versioned
lists of configuration objects, the runtime collaborators
(`runtime_create_*` / `runtime_alter_*` / `runtime_destroy_*`) are an
oracle deciding the success of each call, and every collaborator call is
recorded in an explicit trace.  Exceptions thrown by the C++ code are
modelled as `Option Err` / `Except Err` results; fields of the manager
object that the code assigns are threaded as explicit state.
-/

namespace ConfigSync

/-- Object type tags, from `ConfigManager::Type`. -/
inductive CType where
  | servers
  | monitors
  | services
  | listeners
  | filters
  | maxscale
  | unknown
deriving DecidableEq

/-- Modelled from the spec: the `CN_*` string constants used as type keys come
from `cn_strings.hh`, which is outside the provided sources; the spec's
object kinds (servers, monitors, services, listeners, filters, global
maxscale settings) fix their values.  `to_type` itself embeds
`ConfigManager::to_type`: a lookup defaulting to `UNKNOWN`. -/
def to_type (ty : String) : CType :=
  if ty = "servers" then CType.servers
  else if ty = "monitors" then CType.monitors
  else if ty = "services" then CType.services
  else if ty = "listeners" then CType.listeners
  else if ty = "filters" then CType.filters
  else if ty = "maxscale" then CType.maxscale
  else CType.unknown

/-- A configuration object: `id`, `type`, an optional `relationships`
object (a JSON object mapping relationship names to lists of target
names) and the remaining attribute payload (opaque for our purposes). -/
structure ConfigObject where
  id : String
  ctype : String
  relationships : Option (List (String × List String))
  attributes : List (String × String)
deriving DecidableEq

/-- A configuration snapshot: the `version` integer and the `config`
array of objects, in declaration order. -/
structure Snapshot where
  version : Int
  objects : List ConfigObject
deriving DecidableEq

/-- One collaborator call issued during reconciliation. -/
inductive Call where
  | destroy (ty : String) (name : String)
  | create (ty : String) (obj : ConfigObject)
  | alter (ty : String) (name : String) (obj : ConfigObject)
deriving DecidableEq

/-- Errors thrown by the configuration manager (`ConfigManager::Exception`). -/
inductive Err where
  | staleVersion
  | destroyFailed (ty : String) (name : String)
  | createFailed (ty : String) (name : String)
  | alterFailed (ty : String) (name : String)
  | unexpectedOldType (ty : String) (name : String)
  | unexpectedNewType (ty : String) (name : String)
  | unexpectedType (ty : String) (name : String)
  | connectFailed
  | txFailed
  | createTableFailed
  | queryFailed
  | conflict (stored : Int) (localv : Int)
  | updateFailed
  | commitFailed
deriving DecidableEq

/-- The external runtime collaborators (`runtime_destroy_*`,
`runtime_create_*_from_json`, `runtime_alter_*_from_json`): an oracle
deciding whether each call succeeds. -/
structure Oracle where
  destroy_ok : String → String → Bool
  create_ok : String → ConfigObject → Bool
  alter_ok : String → String → ConfigObject → Bool

/-- The manager state relevant to `process_config`: the two fields the
method assigns (`m_version`, `m_current_config`) plus the trace of
collaborator calls issued so far (the effect on the runtime world). -/
structure MgrState where
  m_version : Int
  m_current_config : Snapshot
  trace : List Call
deriving DecidableEq

/-- The `std::set<std::string>` of object names built by the insertion
loops of `process_config`. -/
def snapshot_names (objs : List ConfigObject) : Finset String :=
  objs.foldl (fun s o => insert o.id s) ∅

/-- The `removed` set: `std::set_difference(old_names, new_names)`. -/
def removed_set (oldObjs newObjs : List ConfigObject) : Finset String :=
  snapshot_names oldObjs \ snapshot_names newObjs

/-- The `added` set: `std::set_difference(new_names, old_names)`. -/
def added_set (oldObjs newObjs : List ConfigObject) : Finset String :=
  snapshot_names newObjs \ snapshot_names oldObjs

/-- Removal of the `services` member of a relationships object
(`obj.get_object(CN_RELATIONSHIPS).erase(CN_SERVICES)`). -/
def eraseServicesRel (r : List (String × List String)) : List (String × List String) :=
  r.filter (fun p => p.1 != "services")

/-- Embeds `ConfigManager::remove_old_object`: dispatch on the type tag,
issue the destroy call, and throw if the collaborator fails; old objects
of type maxscale or of unknown type throw without any call.  Returns the
calls issued and the error, if any. -/
def remove_old_object (orc : Oracle) (name : String) (ty : String) :
    List Call × Option Err :=
  match to_type ty with
  | CType.maxscale => ([], some (Err.unexpectedOldType ty name))
  | CType.unknown => ([], some (Err.unexpectedOldType ty name))
  | _ =>
    if orc.destroy_ok ty name then ([Call.destroy ty name], none)
    else ([Call.destroy ty name], some (Err.destroyFailed ty name))

/-- Embeds `ConfigManager::create_new_object`: servers drop their whole
`relationships` member before creation; monitors drop only the
`services` member of `relationships`; services drop `relationships` and,
after a successful creation, have it restored into the object; listeners
and filters are created unmodified; maxscale is a no-op; unknown types
throw.  Returns the calls issued, the object as left by the method
(the vector element it mutates), and the error, if any. -/
def create_new_object (orc : Oracle) (name : String) (ty : String) (obj : ConfigObject) :
    List Call × ConfigObject × Option Err :=
  match to_type ty with
  | CType.servers =>
    let o := { obj with relationships := none }
    if orc.create_ok ty o then ([Call.create ty o], o, none)
    else ([Call.create ty o], o, some (Err.createFailed ty name))
  | CType.monitors =>
    let o := { obj with relationships := obj.relationships.map eraseServicesRel }
    if orc.create_ok ty o then ([Call.create ty o], o, none)
    else ([Call.create ty o], o, some (Err.createFailed ty name))
  | CType.services =>
    let rel := obj.relationships
    let o := { obj with relationships := none }
    if orc.create_ok ty o then ([Call.create ty o], { o with relationships := rel }, none)
    else ([Call.create ty o], o, some (Err.createFailed ty name))
  | CType.listeners =>
    if orc.create_ok ty obj then ([Call.create ty obj], obj, none)
    else ([Call.create ty obj], obj, some (Err.createFailed ty name))
  | CType.filters =>
    if orc.create_ok ty obj then ([Call.create ty obj], obj, none)
    else ([Call.create ty obj], obj, some (Err.createFailed ty name))
  | CType.maxscale => ([], obj, none)
  | CType.unknown => ([], obj, some (Err.unexpectedNewType ty name))

/-- Embeds `ConfigManager::update_object`: every known type issues an
alter call (including maxscale, via `runtime_alter_maxscale_from_json`);
unknown types throw. -/
def update_object (orc : Oracle) (name : String) (ty : String) (obj : ConfigObject) :
    List Call × Option Err :=
  match to_type ty with
  | CType.unknown => ([], some (Err.unexpectedType ty name))
  | _ =>
    if orc.alter_ok ty name obj then ([Call.alter ty name obj], none)
    else ([Call.alter ty name obj], some (Err.alterFailed ty name))

/-- The removal loop of `process_config`: iterate the (already reversed)
old object list and destroy every object whose name is in `removed`;
stop at the first error. -/
def removal_phase (orc : Oracle) (removed : Finset String) :
    List ConfigObject → List Call × Option Err
  | [] => ([], none)
  | o :: rest =>
    if o.id ∈ removed then
      match remove_old_object orc o.id o.ctype with
      | (cs, some e) => (cs, some e)
      | (cs, none) =>
        let r := removal_phase orc removed rest
        (cs ++ r.1, r.2)
    else removal_phase orc removed rest

/-- The creation loop of `process_config`: iterate the new object list
forward and create every object whose name is in `added`; the loop
passes each object by non-const reference, so the (possibly stripped)
objects are returned alongside the calls; stop at the first error. -/
def creation_phase (orc : Oracle) (added : Finset String) :
    List ConfigObject → List Call × List ConfigObject × Option Err
  | [] => ([], [], none)
  | o :: rest =>
    if o.id ∈ added then
      match create_new_object orc o.id o.ctype o with
      | (cs, o2, some e) => (cs, o2 :: rest, some e)
      | (cs, o2, none) =>
        let r := creation_phase orc added rest
        (cs ++ r.1, o2 :: r.2.1, r.2.2)
    else
      let r := creation_phase orc added rest
      (r.1, o :: r.2.1, r.2.2)

/-- The link/update loop of `process_config`: iterate the new object
list (as left by the creation loop) forward and alter every object that
is not newly added, or whose type is services; stop at the first error. -/
def update_phase (orc : Oracle) (added : Finset String) :
    List ConfigObject → List Call × Option Err
  | [] => ([], none)
  | o :: rest =>
    if o.id ∉ added ∨ to_type o.ctype = CType.services then
      match update_object orc o.id o.ctype o with
      | (cs, some e) => (cs, some e)
      | (cs, none) =>
        let r := update_phase orc added rest
        (cs ++ r.1, r.2)
    else update_phase orc added rest

/-- Embeds `ConfigManager::process_config`.  Throws a stale-version
error when the incoming version is not strictly greater than
`m_version`; otherwise computes the removed/added name sets and runs the
removal, creation and link/update phases in that order; only after all
three succeed are `m_version` and `m_current_config` assigned.  The
returned state is the manager state at the point the method returns or
throws.  Modelled from the spec where `mxb::Json` is concerned: the
spec's Snapshot Model treats snapshots as immutable values, so
`m_current_config` receives the incoming snapshot value. -/
def process_config (orc : Oracle) (s : MgrState) (new_json : Snapshot) :
    MgrState × Option Err :=
  if new_json.version ≤ s.m_version then
    (s, some Err.staleVersion)
  else
    match removal_phase orc (removed_set s.m_current_config.objects new_json.objects)
        s.m_current_config.objects.reverse with
    | (d, some e) => ({ s with trace := s.trace ++ d }, some e)
    | (d, none) =>
      match creation_phase orc (added_set s.m_current_config.objects new_json.objects)
          new_json.objects with
      | (c, _, some e) => ({ s with trace := s.trace ++ d ++ c }, some e)
      | (c, objs2, none) =>
        match update_phase orc (added_set s.m_current_config.objects new_json.objects)
            objs2 with
        | (a, some e) => ({ s with trace := s.trace ++ d ++ c ++ a }, some e)
        | (a, none) =>
          ({ m_version := new_json.version
             m_current_config := new_json
             trace := s.trace ++ d ++ c ++ a }, none)

/-- The destroy calls a successful removal phase issues for a given
object list: one `destroy` per object whose name is in `removed`, in
list order. -/
def destroy_calls (removed : Finset String) (objs : List ConfigObject) : List Call :=
  (objs.filter (fun o => decide (o.id ∈ removed))).map (fun o => Call.destroy o.ctype o.id)

/-- The document `create_new_object` hands to the create collaborator:
servers and services are stripped of `relationships`, monitors of the
`services` member of `relationships`, others are passed unmodified. -/
def strip_for_create (o : ConfigObject) : ConfigObject :=
  match to_type o.ctype with
  | CType.servers => { o with relationships := none }
  | CType.monitors => { o with relationships := o.relationships.map eraseServicesRel }
  | CType.services => { o with relationships := none }
  | _ => o

/-- The object as left in the new-object vector after a successful
`create_new_object`: servers keep their relationships erased, monitors
keep the `services` member erased, services have theirs restored, and
the remaining types are untouched. -/
def after_create (o : ConfigObject) : ConfigObject :=
  match to_type o.ctype with
  | CType.servers => { o with relationships := none }
  | CType.monitors => { o with relationships := o.relationships.map eraseServicesRel }
  | _ => o

/-- The create calls a successful creation phase issues: one `create`
per added non-maxscale object, in list order, with the stripped
document. -/
def create_calls (added : Finset String) (objs : List ConfigObject) : List Call :=
  (objs.filter (fun o => decide (o.id ∈ added) && !(to_type o.ctype == CType.maxscale))).map
    (fun o => Call.create o.ctype (strip_for_create o))

/-- The object list as left by a successful creation phase. -/
def created_objects (added : Finset String) (objs : List ConfigObject) : List ConfigObject :=
  objs.map (fun o => if o.id ∈ added then after_create o else o)

/-- The alter calls a successful link/update phase issues: one `alter`
per object that is not newly added or is a service, in list order. -/
def alter_calls (added : Finset String) (objs : List ConfigObject) : List Call :=
  (objs.filter (fun o => !(decide (o.id ∈ added)) || (to_type o.ctype == CType.services))).map
    (fun o => Call.alter o.ctype o.id o)

/-- The name a collaborator call refers to. -/
def call_name : Call → String
  | Call.destroy _ n => n
  | Call.create _ o => o.id
  | Call.alter _ n _ => n

/-- The (type, name) pairs of the alter calls in a trace, in order. -/
def alter_pairs (tr : List Call) : List (String × String) :=
  tr.filterMap (fun c =>
    match c with
    | Call.alter ty n _ => some (ty, n)
    | _ => none)

/-!  The shared store gateway (`sql_update` / `sql_insert` /
`ConfigManager::update_config`, `ConfigManager::verify_sync`,
`ConfigManager::commit`).  The single row the table holds for the
cluster is modelled explicitly; statement execution follows SQL
semantics: a guarded `UPDATE` matching zero rows still executes
successfully, reporting zero affected rows. -/

/-- The cluster's row in `mysql.maxscale_config`: `(version, config)`,
or none when no row exists. -/
structure Store where
  row : Option (Int × String)
deriving DecidableEq

/-- Executes the statement built by `sql_update`: sets
`version = version + 1, config = payload` on the row `WHERE version =
expected`.  Returns the store after the statement, whether the
statement executed without error, and the number of affected rows. -/
def exec_sql_update (st : Store) (expected : Int) (payload : String) :
    Store × Bool × Nat :=
  match st.row with
  | some rv =>
    if rv.1 = expected then (⟨some (rv.1 + 1, payload)⟩, true, 1)
    else (st, true, 0)
  | none => (st, true, 0)

/-- Executes the statement built by `sql_insert`: inserts
`(version + 1, payload)`; a duplicate primary key makes the statement
fail. -/
def exec_sql_insert (st : Store) (version : Int) (payload : String) :
    Store × Bool × Nat :=
  match st.row with
  | some _ => (st, false, 0)
  | none => (⟨some (version + 1, payload)⟩, true, 1)

/-- Embeds `ConfigManager::update_config`: run `sql_update` when the row
exists, `sql_insert` otherwise; throw if the statement fails, then
throw if `COMMIT` fails (`commit_ok` models the external outcome of the
`COMMIT` command); otherwise return normally.  The affected-row count of
the statement is never examined. -/
def update_config (commit_ok : Bool) (st : Store) (row_exists : Bool)
    (m_version : Int) (payload : String) : Store × Except Err Unit :=
  let r := if row_exists then exec_sql_update st m_version payload
           else exec_sql_insert st m_version payload
  if r.2.1 = false then (r.1, Except.error Err.updateFailed)
  else if commit_ok = false then (r.1, Except.error Err.commitFailed)
  else (r.1, Except.ok ())

/-- The external outcomes of the SQL commands `verify_sync` issues:
whether the connection opens, whether each `START TRANSACTION`
succeeds, whether the config table exists, whether `CREATE TABLE`
succeeds, whether the `SELECT ... FOR UPDATE` query itself succeeds, and
the stored version the query would return. -/
structure VerifyEnv where
  connect_ok : Bool
  begin_ok : Bool
  table_exists : Bool
  create_table_ok : Bool
  begin2_ok : Bool
  query_ok : Bool
  stored : Option Int
deriving DecidableEq

/-- Embeds `ConfigManager::verify_sync`: connect, start a transaction,
run `SELECT version ... FOR UPDATE`; when the table does not exist,
create it, restart the transaction and re-query (the fresh table holds
no row); a row whose version differs from the local version throws the
conflict error.  Returns `m_row_exists` on success. -/
def verify_sync (env : VerifyEnv) (m_version : Int) : Except Err Bool :=
  if env.connect_ok = false then Except.error Err.connectFailed
  else if env.begin_ok = false then Except.error Err.txFailed
  else if env.table_exists = false then
    if env.create_table_ok = false then Except.error Err.createTableFailed
    else if env.begin2_ok = false then Except.error Err.txFailed
    else if env.query_ok = false then Except.error Err.queryFailed
    else Except.ok false
  else if env.query_ok = false then Except.error Err.queryFailed
  else
    match env.stored with
    | none => Except.ok false
    | some v =>
      if v = m_version then Except.ok true
      else Except.error (Err.conflict v m_version)

/-- Embeds `ConfigManager::start`: nothing to do without a configured
cluster; otherwise run `verify_sync` and, on any error, log and invoke
`rollback()` (which issues `ROLLBACK` since the cluster name is
non-empty).  Returns `(ok, rollback issued)`. -/
def start (env : VerifyEnv) (cluster : String) (m_version : Int) : Bool × Bool :=
  if cluster = "" then (true, false)
  else
    match verify_sync env m_version with
    | Except.ok _ => (true, false)
    | Except.error _ => (false, true)

/-- The outcomes of the local cache file operations in
`ConfigManager::commit`: the temp-file write, the flush, and the rename
over the canonical path. -/
structure FileEnv where
  write_ok : Bool
  flush_ok : Bool
  rename_ok : Bool
deriving DecidableEq

/-- The manager state `ConfigManager::commit` touches. -/
structure CommitState where
  m_version : Int
  m_current_config : Snapshot
  m_row_exists : Bool
deriving DecidableEq

/-- Embeds `ConfigManager::commit`: succeed immediately without a
configured cluster; otherwise build the new config (`new_config` and its
serialization `payload` model the result of `create_config(m_version +
1)`), run `update_config`, then write the temp file, flush and rename.
Only when write, flush and rename all succeed are `m_current_config`
and `m_version` advanced and `true` returned; an exception from
`update_config` is caught, triggering `rollback()`.  Returns the store,
the manager state, the returned flag, and whether rollback was
issued. -/
def commit (cluster : String) (fe : FileEnv) (commit_ok : Bool) (st : Store)
    (s : CommitState) (new_config : Snapshot) (payload : String) :
    Store × CommitState × Bool × Bool :=
  if cluster = "" then (st, s, true, false)
  else
    match update_config commit_ok st s.m_row_exists s.m_version payload with
    | (st1, Except.error _) => (st1, s, false, true)
    | (st1, Except.ok _) =>
      if fe.write_ok && fe.flush_ok && fe.rename_ok then
        (st1, { s with m_current_config := new_config, m_version := s.m_version + 1 },
          true, false)
      else
        (st1, s, false, false)

/-!  Concrete fixtures used by the witness theorems. -/

/-- An oracle whose collaborator calls all succeed. -/
def orc_all : Oracle :=
  ⟨fun _ _ => true, fun _ _ => true, fun _ _ _ => true⟩

/-- A concrete server object with a relationships document. -/
def obj_server1 : ConfigObject :=
  ⟨"s1", "servers", some [("monitors", ["m1"])], [("address", "127.0.0.1")]⟩

/-- A concrete monitor object with server and service relationships. -/
def obj_monitor1 : ConfigObject :=
  ⟨"m1", "monitors", some [("servers", ["s1"]), ("services", ["svc1"])], []⟩

/-- A concrete service object with a server relationship. -/
def obj_service1 : ConfigObject :=
  ⟨"svc1", "services", some [("servers", ["s1"])], []⟩

/-- A concrete listener object. -/
def obj_listener1 : ConfigObject :=
  ⟨"l1", "listeners", some [("services", ["svc1"])], [("port", "4006")]⟩

/-- A concrete filter object. -/
def obj_filter1 : ConfigObject :=
  ⟨"f1", "filters", none, []⟩

/-- A concrete global-settings object. -/
def obj_maxscale1 : ConfigObject :=
  ⟨"cfg", "maxscale", none, [("auth_connect_timeout", "10")]⟩

/-- The empty snapshot at version 0. -/
def snap0 : Snapshot := ⟨0, []⟩

/-- Version 1: a server and a monitor (end-to-end scenario 1). -/
def snap1 : Snapshot := ⟨1, [obj_server1, obj_monitor1]⟩

/-- Version 2: the server removed (end-to-end scenario 2). -/
def snap2 : Snapshot := ⟨2, [obj_monitor1]⟩

/-- A snapshot with a global-settings object and a server, all new. -/
def snapM : Snapshot := ⟨1, [obj_server1, obj_maxscale1]⟩

/-- The initial manager state: version 0, empty config, empty trace. -/
def state0 : MgrState := ⟨0, snap0, []⟩

example :
    process_config orc_all state0 snap1 =
      (⟨1, snap1,
        [Call.create "servers" ⟨"s1", "servers", none, [("address", "127.0.0.1")]⟩,
         Call.create "monitors" ⟨"m1", "monitors", some [("servers", ["s1"])], []⟩]⟩,
        none) := by decide

example :
    process_config orc_all ⟨1, snap1, []⟩ snap2 =
      (⟨2, snap2,
        [Call.destroy "servers" "s1",
         Call.alter "monitors" "m1" obj_monitor1]⟩, none) := by decide

example : (process_config orc_all ⟨1, snap1, []⟩ snap1).2 = some Err.staleVersion := by decide

/-!  Basic lemmas about the name sets. -/

theorem foldl_insert_names (objs : List ConfigObject) (s : Finset String) :
    objs.foldl (fun t o => insert o.id t) s = s ∪ (objs.map ConfigObject.id).toFinset := by
  induction objs generalizing s with
  | nil => simp
  | cons o rest ih =>
    simp only [List.foldl_cons, List.map_cons, List.toFinset_cons]
    rw [ih, Finset.insert_union, Finset.union_insert]

theorem snapshot_names_eq (objs : List ConfigObject) :
    snapshot_names objs = (objs.map ConfigObject.id).toFinset := by
  rw [snapshot_names, foldl_insert_names]
  simp

/-!  Characterization of the per-object operations on success. -/

theorem remove_old_object_ok (orc : Oracle) (n ty : String) (cs : List Call)
    (h : remove_old_object orc n ty = (cs, none)) :
    cs = [Call.destroy ty n] := by
  cases ht : to_type ty <;> simp only [remove_old_object, ht] at h <;>
    first
      | (split at h <;> simp_all)
      | simp_all

theorem create_new_object_char (orc : Oracle) (o : ConfigObject) (cs : List Call)
    (o2 : ConfigObject)
    (h : create_new_object orc o.id o.ctype o = (cs, o2, none)) :
    cs = (if to_type o.ctype = CType.maxscale then []
          else [Call.create o.ctype (strip_for_create o)]) ∧
    o2 = after_create o := by
  obtain ⟨i, ct, rel, attr⟩ := o
  cases ht : to_type ct <;>
    simp only [create_new_object, strip_for_create, after_create, ht] at h ⊢ <;>
    first
      | (split at h <;>
          (injection h with h1 h23; injection h23 with h2 h3;
           first
             | exact Option.noConfusion h3
             | (subst h1; subst h2; simp)))
      | (injection h with h1 h23; injection h23 with h2 h3;
         first
           | exact Option.noConfusion h3
           | (subst h1; subst h2; simp))

theorem update_object_char (orc : Oracle) (o : ConfigObject) (cs : List Call)
    (h : update_object orc o.id o.ctype o = (cs, none)) :
    cs = [Call.alter o.ctype o.id o] := by
  cases ht : to_type o.ctype <;> simp only [update_object, ht] at h <;>
    first
      | (split at h <;> simp_all)
      | simp_all

/-!  Characterization of the three phases on success. -/

theorem removal_phase_ok (orc : Oracle) (removed : Finset String) :
    ∀ l : List ConfigObject, (removal_phase orc removed l).2 = none →
      (removal_phase orc removed l).1 = destroy_calls removed l := by
  intro l
  induction l with
  | nil => intro _; simp [removal_phase, destroy_calls]
  | cons o rest ih =>
    intro h
    by_cases hm : o.id ∈ removed
    · rcases he : remove_old_object orc o.id o.ctype with ⟨cs, e⟩
      cases e with
      | some err =>
        simp only [removal_phase, if_pos hm, he] at h
        exact Option.noConfusion h
      | none =>
        have hcs := remove_old_object_ok orc o.id o.ctype cs he
        simp only [removal_phase, if_pos hm, he] at h ⊢
        rw [ih h, hcs]
        simp [destroy_calls, List.filter_cons, hm]
    · simp only [removal_phase, if_neg hm] at h ⊢
      rw [ih h]
      simp [destroy_calls, List.filter_cons, hm]

theorem creation_phase_ok (orc : Oracle) (added : Finset String) :
    ∀ l : List ConfigObject, (creation_phase orc added l).2.2 = none →
      (creation_phase orc added l).1 = create_calls added l ∧
      (creation_phase orc added l).2.1 = created_objects added l := by
  intro l
  induction l with
  | nil => intro _; simp [creation_phase, create_calls, created_objects]
  | cons o rest ih =>
    intro h
    by_cases hm : o.id ∈ added
    · rcases he : create_new_object orc o.id o.ctype o with ⟨cs, o2, e⟩
      cases e with
      | some err =>
        simp only [creation_phase, if_pos hm, he] at h
        exact Option.noConfusion h
      | none =>
        have hco := create_new_object_char orc o cs o2 he
        simp only [creation_phase, if_pos hm, he] at h ⊢
        obtain ⟨hih1, hih2⟩ := ih h
        constructor
        · rw [hih1, hco.1]
          by_cases hmax : to_type o.ctype = CType.maxscale
          · simp [create_calls, List.filter_cons, hm, hmax]
          · simp [create_calls, List.filter_cons, hm, hmax]
        · rw [hih2, hco.2]
          simp [created_objects, hm]
    · simp only [creation_phase, if_neg hm] at h ⊢
      obtain ⟨hih1, hih2⟩ := ih h
      constructor
      · rw [hih1]
        simp [create_calls, List.filter_cons, hm]
      · rw [hih2]
        simp [created_objects, hm]

theorem update_phase_ok (orc : Oracle) (added : Finset String) :
    ∀ l : List ConfigObject, (update_phase orc added l).2 = none →
      (update_phase orc added l).1 = alter_calls added l := by
  intro l
  induction l with
  | nil => intro _; simp [update_phase, alter_calls]
  | cons o rest ih =>
    intro h
    by_cases hc : o.id ∉ added ∨ to_type o.ctype = CType.services
    · rcases he : update_object orc o.id o.ctype o with ⟨cs, e⟩
      cases e with
      | some err =>
        simp only [update_phase, if_pos hc, he] at h
        exact Option.noConfusion h
      | none =>
        have hcs := update_object_char orc o cs he
        simp only [update_phase, if_pos hc, he] at h ⊢
        rw [ih h, hcs]
        have hb : (!(decide (o.id ∈ added)) || (to_type o.ctype == CType.services)) = true := by
          rcases hc with hc | hc <;> simp [hc]
        simp [alter_calls, List.filter_cons, hb]
    · simp only [update_phase, if_neg hc] at h ⊢
      rw [ih h]
      have hb : (!(decide (o.id ∈ added)) || (to_type o.ctype == CType.services)) = false := by
        push_neg at hc
        simp [hc.1, hc.2]
      simp [alter_calls, List.filter_cons, hb]

/-!  Characterization of `process_config` on success. -/

theorem process_config_ok_char (orc : Oracle) (s : MgrState) (new_json : Snapshot)
    (s' : MgrState) (h : process_config orc s new_json = (s', none)) :
    s.m_version < new_json.version ∧
    s'.m_version = new_json.version ∧
    s'.m_current_config = new_json ∧
    s'.trace = s.trace
      ++ destroy_calls (removed_set s.m_current_config.objects new_json.objects)
           s.m_current_config.objects.reverse
      ++ create_calls (added_set s.m_current_config.objects new_json.objects)
           new_json.objects
      ++ alter_calls (added_set s.m_current_config.objects new_json.objects)
           (created_objects (added_set s.m_current_config.objects new_json.objects)
             new_json.objects) := by
  unfold process_config at h
  split at h
  · simp at h
  · rename_i hver
    split at h
    · simp at h
    · rename_i d hd
      split at h
      · simp at h
      · rename_i c objs2 hc
        split at h
        · simp at h
        · rename_i a ha
          injection h with h1 h2
          subst h1
          have hd1 : d = destroy_calls (removed_set s.m_current_config.objects
              new_json.objects) s.m_current_config.objects.reverse := by
            have h0 := removal_phase_ok orc
              (removed_set s.m_current_config.objects new_json.objects)
              s.m_current_config.objects.reverse (by rw [hd])
            rw [hd] at h0
            exact h0
          have hcc := creation_phase_ok orc
            (added_set s.m_current_config.objects new_json.objects)
            new_json.objects (by rw [hc])
          rw [hc] at hcc
          have hc1 : c = create_calls (added_set s.m_current_config.objects
              new_json.objects) new_json.objects := hcc.1
          have hc2 : objs2 = created_objects (added_set s.m_current_config.objects
              new_json.objects) new_json.objects := hcc.2
          have ha1 : a = alter_calls (added_set s.m_current_config.objects
              new_json.objects) objs2 := by
            have h0 := update_phase_ok orc
              (added_set s.m_current_config.objects new_json.objects) objs2 (by rw [ha])
            rw [ha] at h0
            exact h0
          refine ⟨by omega, rfl, rfl, ?_⟩
          rw [hd1, hc1, ha1, hc2]

/-!  Preservation of identity fields by the creation-phase adjustments. -/

theorem after_create_id (o : ConfigObject) : (after_create o).id = o.id := by
  cases ht : to_type o.ctype <;> simp [after_create, ht]

theorem after_create_ctype (o : ConfigObject) : (after_create o).ctype = o.ctype := by
  cases ht : to_type o.ctype <;> simp [after_create, ht]

theorem strip_for_create_id (o : ConfigObject) : (strip_for_create o).id = o.id := by
  cases ht : to_type o.ctype <;> simp [strip_for_create, ht]

/-!  Lemmas about the alter-call projection of traces. -/

theorem alter_pairs_append (t1 t2 : List Call) :
    alter_pairs (t1 ++ t2) = alter_pairs t1 ++ alter_pairs t2 :=
  List.filterMap_append t1 t2 _

theorem alter_pairs_destroy_calls (r : Finset String) (l : List ConfigObject) :
    alter_pairs (destroy_calls r l) = [] := by
  unfold destroy_calls
  induction l.filter (fun o => decide (o.id ∈ r)) with
  | nil => rfl
  | cons o rest ih =>
    simp only [List.map_cons, alter_pairs, List.filterMap_cons] at ih ⊢
    exact ih

theorem alter_pairs_create_calls (a : Finset String) (l : List ConfigObject) :
    alter_pairs (create_calls a l) = [] := by
  unfold create_calls
  induction l.filter
      (fun o => decide (o.id ∈ a) && !(to_type o.ctype == CType.maxscale)) with
  | nil => rfl
  | cons o rest ih =>
    simp only [List.map_cons, alter_pairs, List.filterMap_cons] at ih ⊢
    exact ih

theorem alter_pairs_alter_calls (a : Finset String) (l : List ConfigObject) :
    alter_pairs (alter_calls a l) =
      (l.filter (fun o => !(decide (o.id ∈ a)) || (to_type o.ctype == CType.services))).map
        (fun o => (o.ctype, o.id)) := by
  unfold alter_calls
  induction l.filter
      (fun o => !(decide (o.id ∈ a)) || (to_type o.ctype == CType.services)) with
  | nil => rfl
  | cons o rest ih =>
    simp only [List.map_cons, alter_pairs, List.filterMap_cons] at ih ⊢
    rw [ih]

theorem created_objects_filter_pairs (a : Finset String) (l : List ConfigObject) :
    ((created_objects a l).filter
        (fun o => !(decide (o.id ∈ a)) || (to_type o.ctype == CType.services))).map
      (fun o => (o.ctype, o.id)) =
    (l.filter (fun o => !(decide (o.id ∈ a)) || (to_type o.ctype == CType.services))).map
      (fun o => (o.ctype, o.id)) := by
  induction l with
  | nil => rfl
  | cons o rest ih =>
    have hid : (if o.id ∈ a then after_create o else o).id = o.id := by
      split <;> simp [after_create_id]
    have hct : (if o.id ∈ a then after_create o else o).ctype = o.ctype := by
      split <;> simp [after_create_ctype]
    simp only [created_objects, List.map_cons] at ih ⊢
    simp only [List.filter_cons, hid, hct]
    by_cases hb : (!(decide (o.id ∈ a)) || (to_type o.ctype == CType.services)) = true
    · simp only [hb, if_true, List.map_cons, hct, hid]
      rw [ih]
    · simp only [Bool.not_eq_true] at hb
      simp only [hb, Bool.false_eq_true, if_false]
      exact ih

/-- An oracle whose create calls all fail. -/
def orc_create_fails : Oracle :=
  ⟨fun _ _ => true, fun _ _ => false, fun _ _ _ => true⟩

/-!  Claim theorems. -/

/-- C1: `process_config` fails with the stale-version error whenever the
incoming snapshot's version is less than or equal to the locally tracked
version, leaving the state (trace included, hence without any
destroy/create/alter call) untouched; whenever the incoming version is
strictly greater and every phase succeeds, `m_version` is set to the
incoming snapshot's version and the incoming snapshot becomes
`m_current_config`. -/
theorem process_config_monotonicity (orc : Oracle) (s : MgrState) (new_json : Snapshot) :
    (new_json.version ≤ s.m_version →
      process_config orc s new_json = (s, some Err.staleVersion)) ∧
    (∀ s' : MgrState, process_config orc s new_json = (s', none) →
      s.m_version < new_json.version ∧ s'.m_version = new_json.version ∧
        s'.m_current_config = new_json) := by
  constructor
  · intro hle
    unfold process_config
    rw [if_pos hle]
  · intro s' h
    have hch := process_config_ok_char orc s new_json s' h
    exact ⟨hch.1, hch.2.1, hch.2.2.1⟩

/-- Witness for C1: a stale snapshot (same version 1) is rejected
without touching the state, and applying version 2 over version 1
succeeds, setting the tracked version to 2 and the current config to
the incoming snapshot. -/
theorem process_config_monotonicity_witness :
    process_config orc_all ⟨1, snap1, []⟩ snap1 =
      (⟨1, snap1, []⟩, some Err.staleVersion) ∧
    ((1 : Int) < 2 ∧
      (process_config orc_all ⟨1, snap1, []⟩ snap2).1.m_version = 2 ∧
      (process_config orc_all ⟨1, snap1, []⟩ snap2).1.m_current_config = snap2) := by
  constructor
  · exact (process_config_monotonicity orc_all ⟨1, snap1, []⟩ snap1).1 (by decide)
  · exact (process_config_monotonicity orc_all ⟨1, snap1, []⟩ snap2).2
      (process_config orc_all ⟨1, snap1, []⟩ snap2).1 (by decide)

/-- C4: whenever `process_config` fails at any phase (stale version, or
a failing destroy, create or alter call), the locally tracked version
`m_version` and the current snapshot `m_current_config` are exactly as
they were before the call; they are only assigned after every phase has
completed. -/
theorem process_config_failure_preserves_state (orc : Oracle) (s : MgrState)
    (new_json : Snapshot) (s' : MgrState) (e : Err)
    (h : process_config orc s new_json = (s', some e)) :
    s'.m_version = s.m_version ∧ s'.m_current_config = s.m_current_config := by
  unfold process_config at h
  split at h
  · injection h with h1 h2
    subst h1
    exact ⟨rfl, rfl⟩
  · split at h
    · injection h with h1 h2
      subst h1
      exact ⟨rfl, rfl⟩
    · split at h
      · injection h with h1 h2
        subst h1
        exact ⟨rfl, rfl⟩
      · split at h
        · injection h with h1 h2
          subst h1
          exact ⟨rfl, rfl⟩
        · simp at h

/-- Witness for C4: a run whose creation phase fails (the oracle refuses
every create) leaves the tracked version at 0 and the current snapshot
empty, even though a create call was already issued. -/
theorem process_config_failure_preserves_state_witness :
    (process_config orc_create_fails state0 snap1).1.m_version = 0 ∧
    (process_config orc_create_fails state0 snap1).1.m_current_config = snap0 :=
  process_config_failure_preserves_state orc_create_fails state0 snap1
    (process_config orc_create_fails state0 snap1).1
    (Err.createFailed "servers" "s1") (by decide)

/-- C2: in every successful run the appended trace is exactly the
destroy calls (old objects iterated in reverse declaration order,
filtered by the removed set), followed by the create calls (new objects
in forward order, filtered by the added set), followed by the alter
calls in forward order; the three segments consist solely of destroy,
create and alter calls respectively, so no create or alter call ever
precedes a destroy call of the same run. -/
theorem process_config_ordering (orc : Oracle) (s : MgrState) (new_json : Snapshot)
    (s' : MgrState) (h : process_config orc s new_json = (s', none)) :
    s'.trace = s.trace
      ++ destroy_calls (removed_set s.m_current_config.objects new_json.objects)
           s.m_current_config.objects.reverse
      ++ create_calls (added_set s.m_current_config.objects new_json.objects)
           new_json.objects
      ++ alter_calls (added_set s.m_current_config.objects new_json.objects)
           (created_objects (added_set s.m_current_config.objects new_json.objects)
              new_json.objects) ∧
    (∀ c ∈ destroy_calls (removed_set s.m_current_config.objects new_json.objects)
        s.m_current_config.objects.reverse, ∃ ty n, c = Call.destroy ty n) ∧
    (∀ c ∈ create_calls (added_set s.m_current_config.objects new_json.objects)
        new_json.objects, ∃ ty o, c = Call.create ty o) ∧
    (∀ c ∈ alter_calls (added_set s.m_current_config.objects new_json.objects)
        (created_objects (added_set s.m_current_config.objects new_json.objects)
          new_json.objects), ∃ ty n o, c = Call.alter ty n o) := by
  refine ⟨(process_config_ok_char orc s new_json s' h).2.2.2, ?_, ?_, ?_⟩
  · intro c hc
    simp only [destroy_calls, List.mem_map] at hc
    obtain ⟨o, _, rfl⟩ := hc
    exact ⟨o.ctype, o.id, rfl⟩
  · intro c hc
    simp only [create_calls, List.mem_map] at hc
    obtain ⟨o, _, rfl⟩ := hc
    exact ⟨o.ctype, strip_for_create o, rfl⟩
  · intro c hc
    simp only [alter_calls, List.mem_map] at hc
    obtain ⟨o, _, rfl⟩ := hc
    exact ⟨o.ctype, o.id, o, rfl⟩

/-- Witness for C2: the spec's end-to-end scenario 2 — from
`{Server s1, Monitor m1}` at version 1 to `{Monitor m1}` at version 2 —
produces exactly the destroy of the server followed by the alter of the
monitor, matching the three phase segments. -/
theorem process_config_ordering_witness :
    (process_config orc_all ⟨1, snap1, []⟩ snap2).1.trace =
      [] ++ destroy_calls (removed_set snap1.objects snap2.objects) snap1.objects.reverse
         ++ create_calls (added_set snap1.objects snap2.objects) snap2.objects
         ++ alter_calls (added_set snap1.objects snap2.objects)
              (created_objects (added_set snap1.objects snap2.objects) snap2.objects) :=
  (process_config_ordering orc_all ⟨1, snap1, []⟩ snap2
    (process_config orc_all ⟨1, snap1, []⟩ snap2).1 (by decide)).1

/-- C9: the removed set computed by `process_config` is the set of old
object names minus the new object names, the added set is the new names
minus the old names, and the two sets are disjoint. -/
theorem diff_sets_correct (oldObjs newObjs : List ConfigObject) :
    removed_set oldObjs newObjs =
      (oldObjs.map ConfigObject.id).toFinset \ (newObjs.map ConfigObject.id).toFinset ∧
    added_set oldObjs newObjs =
      (newObjs.map ConfigObject.id).toFinset \ (oldObjs.map ConfigObject.id).toFinset ∧
    Disjoint (removed_set oldObjs newObjs) (added_set oldObjs newObjs) := by
  refine ⟨?_, ?_, ?_⟩
  · rw [removed_set, snapshot_names_eq, snapshot_names_eq]
  · rw [added_set, snapshot_names_eq, snapshot_names_eq]
  · exact disjoint_sdiff_sdiff

/-- C5: in every successful run, the (type, name) pairs receiving an
alter call are exactly the objects of the new snapshot that are not in
the added set or whose type is services, in forward order; in
particular all unchanged objects receive an alter call, and an added
object receives one exactly when it is a service. -/
theorem process_config_alter_exactly (orc : Oracle) (s : MgrState) (new_json : Snapshot)
    (s' : MgrState) (h : process_config orc s new_json = (s', none)) :
    alter_pairs s'.trace = alter_pairs s.trace ++
      (new_json.objects.filter (fun o =>
        !(decide (o.id ∈ added_set s.m_current_config.objects new_json.objects)) ||
        (to_type o.ctype == CType.services))).map (fun o => (o.ctype, o.id)) := by
  have hch := process_config_ok_char orc s new_json s' h
  rw [hch.2.2.2, alter_pairs_append, alter_pairs_append, alter_pairs_append,
    alter_pairs_destroy_calls, alter_pairs_create_calls, alter_pairs_alter_calls,
    created_objects_filter_pairs]
  simp

/-- Witness for C5: adding a server to a snapshot holding a monitor and
a service issues alter calls exactly for the monitor and the service
(the unchanged objects), not for the added non-service server. -/
theorem process_config_alter_exactly_witness :
    alter_pairs (process_config orc_all ⟨1, ⟨1, [obj_monitor1, obj_service1]⟩, []⟩
        ⟨2, [obj_server1, obj_monitor1, obj_service1]⟩).1.trace =
      alter_pairs [] ++
      (([obj_server1, obj_monitor1, obj_service1] : List ConfigObject).filter (fun o =>
        !(decide (o.id ∈ added_set [obj_monitor1, obj_service1]
            [obj_server1, obj_monitor1, obj_service1])) ||
        (to_type o.ctype == CType.services))).map (fun o => (o.ctype, o.id)) :=
  process_config_alter_exactly orc_all ⟨1, ⟨1, [obj_monitor1, obj_service1]⟩, []⟩
    ⟨2, [obj_server1, obj_monitor1, obj_service1]⟩
    (process_config orc_all ⟨1, ⟨1, [obj_monitor1, obj_service1]⟩, []⟩
      ⟨2, [obj_server1, obj_monitor1, obj_service1]⟩).1 (by decide)

/-- C10: in a successful run started with an empty trace, an added
object whose type tag maps to maxscale (global settings) — as happens to
every object when rebuilding from the local cache against an empty old
snapshot — receives no collaborator call at all: the creation phase
treats maxscale as a no-op and the link/update phase skips it because
it is newly added and not a service. -/
theorem process_config_skips_added_maxscale (orc : Oracle) (s : MgrState)
    (new_json : Snapshot) (x : ConfigObject) (s' : MgrState)
    (htr : s.trace = [])
    (hx : x ∈ new_json.objects)
    (hty : to_type x.ctype = CType.maxscale)
    (hadd : x.id ∈ added_set s.m_current_config.objects new_json.objects)
    (hnd : (new_json.objects.map ConfigObject.id).Nodup)
    (h : process_config orc s new_json = (s', none)) :
    ∀ c ∈ s'.trace, call_name c ≠ x.id := by
  have hch := process_config_ok_char orc s new_json s' h
  intro c hc
  rw [hch.2.2.2, htr] at hc
  simp only [List.nil_append, List.mem_append] at hc
  have hxold : x.id ∉ snapshot_names s.m_current_config.objects := by
    have hm := hadd
    simp only [added_set, Finset.mem_sdiff] at hm
    exact hm.2
  rcases hc with (hc | hc) | hc
  · simp only [destroy_calls, List.mem_map, List.mem_filter] at hc
    obtain ⟨o, ⟨_, hor⟩, rfl⟩ := hc
    simp only [call_name]
    intro hEq
    apply hxold
    have hom : o.id ∈ removed_set s.m_current_config.objects new_json.objects := by
      simpa using hor
    simp only [removed_set, Finset.mem_sdiff] at hom
    rw [← hEq]
    exact hom.1
  · simp only [create_calls, List.mem_map, List.mem_filter] at hc
    obtain ⟨o, ⟨ho, hcond⟩, rfl⟩ := hc
    simp only [call_name, strip_for_create_id]
    intro hEq
    have ho_eq : o = x := List.inj_on_of_nodup_map hnd ho hx hEq
    rw [ho_eq] at hcond
    simp [hty] at hcond
  · simp only [alter_calls, List.mem_map, List.mem_filter] at hc
    obtain ⟨o2, ⟨ho2, hcond⟩, rfl⟩ := hc
    simp only [created_objects, List.mem_map] at ho2
    obtain ⟨o, ho, rfl⟩ := ho2
    have hid : (if o.id ∈ added_set s.m_current_config.objects new_json.objects
        then after_create o else o).id = o.id := by
      split <;> simp [after_create_id]
    have hct : (if o.id ∈ added_set s.m_current_config.objects new_json.objects
        then after_create o else o).ctype = o.ctype := by
      split <;> simp [after_create_ctype]
    simp only [call_name, hid]
    intro hEq
    have ho_eq : o = x := List.inj_on_of_nodup_map hnd ho hx hEq
    rw [hid, hct, ho_eq] at hcond
    simp [hty] at hcond
    exact hcond hadd

/-- Witness for C10: rebuilding `{Server s1, GlobalSettings cfg}` from
an empty snapshot issues only the server's create call, whose name is
not the global-settings object's name. -/
theorem process_config_skips_added_maxscale_witness :
    call_name (Call.create "servers"
        ⟨"s1", "servers", none, [("address", "127.0.0.1")]⟩) ≠ "cfg" :=
  process_config_skips_added_maxscale orc_all state0 snapM obj_maxscale1
    (process_config orc_all state0 snapM).1 rfl (by decide) (by decide) (by decide)
    (by decide) (by decide)
    (Call.create "servers" ⟨"s1", "servers", none, [("address", "127.0.0.1")]⟩)
    (by decide)

/-- C6: before its create call is issued, a newly added server has its
entire relationships field removed; a monitor has only the `services`
entry of its relationships removed (`eraseServicesRel`); a service has
its entire relationships field removed and, after a successful
creation, restored into the object (so the link/update phase can apply
it — the returned object is the original `o`); listeners and filters
are created with their document unmodified. -/
theorem create_new_object_strips_relationships (orc : Oracle) (o : ConfigObject) :
    (to_type o.ctype = CType.servers →
      create_new_object orc o.id o.ctype o =
        ([Call.create o.ctype { o with relationships := none }],
         { o with relationships := none },
         if orc.create_ok o.ctype { o with relationships := none } then none
         else some (Err.createFailed o.ctype o.id))) ∧
    (to_type o.ctype = CType.monitors →
      create_new_object orc o.id o.ctype o =
        ([Call.create o.ctype
            { o with relationships := o.relationships.map eraseServicesRel }],
         { o with relationships := o.relationships.map eraseServicesRel },
         if orc.create_ok o.ctype
             { o with relationships := o.relationships.map eraseServicesRel } then none
         else some (Err.createFailed o.ctype o.id))) ∧
    (to_type o.ctype = CType.services →
      orc.create_ok o.ctype { o with relationships := none } = true →
      create_new_object orc o.id o.ctype o =
        ([Call.create o.ctype { o with relationships := none }], o, none)) ∧
    (to_type o.ctype = CType.listeners →
      create_new_object orc o.id o.ctype o =
        ([Call.create o.ctype o], o,
         if orc.create_ok o.ctype o then none
         else some (Err.createFailed o.ctype o.id))) ∧
    (to_type o.ctype = CType.filters →
      create_new_object orc o.id o.ctype o =
        ([Call.create o.ctype o], o,
         if orc.create_ok o.ctype o then none
         else some (Err.createFailed o.ctype o.id))) := by
  obtain ⟨i, ct, rel, attr⟩ := o
  refine ⟨?_, ?_, ?_, ?_, ?_⟩ <;> intro ht
  · simp only [create_new_object, ht]
    split <;> simp_all
  · simp only [create_new_object, ht]
    split <;> simp_all
  · intro hok
    simp only [create_new_object, ht] at hok ⊢
    simp only [hok, if_true]
  · simp only [create_new_object, ht]
    split <;> simp_all
  · simp only [create_new_object, ht]
    split <;> simp_all

/-- Witness for C6: concrete create calls for one object of each type:
the server and service documents lose their relationships (the
service's are restored in the returned object), the monitor document
loses only its `services` relationship entry, and the listener and
filter documents are unmodified. -/
theorem create_new_object_strips_relationships_witness :
    create_new_object orc_all "s1" "servers" obj_server1 =
      ([Call.create "servers" ⟨"s1", "servers", none, [("address", "127.0.0.1")]⟩],
       ⟨"s1", "servers", none, [("address", "127.0.0.1")]⟩, none) ∧
    create_new_object orc_all "m1" "monitors" obj_monitor1 =
      ([Call.create "monitors" ⟨"m1", "monitors", some [("servers", ["s1"])], []⟩],
       ⟨"m1", "monitors", some [("servers", ["s1"])], []⟩, none) ∧
    create_new_object orc_all "svc1" "services" obj_service1 =
      ([Call.create "services" ⟨"svc1", "services", none, []⟩], obj_service1, none) ∧
    create_new_object orc_all "l1" "listeners" obj_listener1 =
      ([Call.create "listeners" obj_listener1], obj_listener1, none) ∧
    create_new_object orc_all "f1" "filters" obj_filter1 =
      ([Call.create "filters" obj_filter1], obj_filter1, none) := by
  refine ⟨?_, ?_, ?_, ?_, ?_⟩
  · exact (create_new_object_strips_relationships orc_all obj_server1).1 (by decide)
  · exact (create_new_object_strips_relationships orc_all obj_monitor1).2.1 (by decide)
  · exact (create_new_object_strips_relationships orc_all obj_service1).2.2.1
      (by decide) (by decide)
  · exact (create_new_object_strips_relationships orc_all obj_listener1).2.2.2.1
      (by decide)
  · exact (create_new_object_strips_relationships orc_all obj_filter1).2.2.2.2
      (by decide)

/-- Counterexample for C3: with a stored row at version 5 and an
expected version of 3, the guarded UPDATE matches zero rows, yet
`update_config` reports success (no error) and the store is unchanged —
the claim that it returns false to its caller in this situation is
false. -/
theorem update_config_zero_rows_reported_ok :
    (exec_sql_update ⟨some (5, "old")⟩ 3 "new").2.2 = 0 ∧
    (update_config true ⟨some (5, "old")⟩ true 3 "new").2 = Except.ok () ∧
    (update_config true ⟨some (5, "old")⟩ true 3 "new").1 = ⟨some (5, "old")⟩ :=
  ⟨rfl, rfl, rfl⟩

/-- C3 (amended): `update_config` never examines the affected-row count
of the guarded UPDATE; with an existing row it reports success exactly
when the statement executes and the COMMIT succeeds, even when the
UPDATE matched zero rows because the stored version differs from the
expected one (in which case the store is left unchanged); the
affected-row count is 1 when the stored version matches and 0
otherwise. -/
theorem update_config_ignores_affected_rows (commit_ok : Bool) (v : Int) (p : String)
    (m_version : Int) (payload : String) :
    ((update_config commit_ok ⟨some (v, p)⟩ true m_version payload).2 = Except.ok () ↔
      commit_ok = true) ∧
    (exec_sql_update ⟨some (v, p)⟩ m_version payload).2.2 =
      (if v = m_version then 1 else 0) := by
  constructor
  · by_cases hv : v = m_version <;> cases commit_ok <;>
      simp [update_config, exec_sql_update, hv]
  · by_cases hv : v = m_version <;> simp [exec_sql_update, hv]

/-- C7: whenever the connection, transaction, table-creation and query
steps succeed, `verify_sync` succeeds when no stored row exists for the
cluster (table absent, or present without a row) or when the stored
version equals the local version; it throws the conflict error exactly
when a stored row exists whose version differs from the local version;
and on any `verify_sync` error, `start` returns false and invokes
`rollback`, aborting the opened transaction. -/
theorem verify_sync_conflict_exactly (env : VerifyEnv) (m_version : Int)
    (cluster : String)
    (hc : env.connect_ok = true) (hb : env.begin_ok = true)
    (hq : env.query_ok = true) (hct : env.create_table_ok = true)
    (hb2 : env.begin2_ok = true) :
    ((env.table_exists = false ∨ env.stored = none ∨ env.stored = some m_version) →
      ∃ b, verify_sync env m_version = Except.ok b) ∧
    ((∃ v, verify_sync env m_version = Except.error (Err.conflict v m_version)) ↔
      (env.table_exists = true ∧ ∃ v, env.stored = some v ∧ v ≠ m_version)) ∧
    (cluster ≠ "" → ∀ e : Err, verify_sync env m_version = Except.error e →
      start env cluster m_version = (false, true)) := by
  refine ⟨?_, ?_, ?_⟩
  · intro hok
    rcases hok with hte | hst | hst
    · exact ⟨false, by simp [verify_sync, hc, hb, hq, hct, hb2, hte]⟩
    · cases hte : env.table_exists
      · exact ⟨false, by simp [verify_sync, hc, hb, hq, hct, hb2, hte]⟩
      · exact ⟨false, by simp [verify_sync, hc, hb, hq, hct, hb2, hte, hst]⟩
    · cases hte : env.table_exists
      · exact ⟨false, by simp [verify_sync, hc, hb, hq, hct, hb2, hte]⟩
      · exact ⟨true, by simp [verify_sync, hc, hb, hq, hct, hb2, hte, hst]⟩
  · constructor
    · rintro ⟨v, hv⟩
      cases hte : env.table_exists
      · simp [verify_sync, hc, hb, hq, hct, hb2, hte] at hv
      · refine ⟨rfl, ?_⟩
        rcases hst : env.stored with _ | sv
        · simp [verify_sync, hc, hb, hq, hct, hb2, hte, hst] at hv
        · by_cases hsv : sv = m_version
          · simp [verify_sync, hc, hb, hq, hct, hb2, hte, hst, hsv] at hv
          · exact ⟨sv, rfl, hsv⟩
    · rintro ⟨hte, v, hst, hv⟩
      exact ⟨v, by simp [verify_sync, hc, hb, hq, hct, hb2, hte, hst, hv]⟩
  · intro hcl e he
    rw [start, if_neg hcl, he]

/-- Witness for C7: a stored version 5 against a local version 3 makes
`verify_sync` throw the conflict error and `start` return false after
issuing `ROLLBACK`; with a matching stored version `verify_sync`
succeeds. -/
theorem verify_sync_conflict_exactly_witness :
    (∃ b, verify_sync ⟨true, true, true, true, true, true, some 3⟩ 3 = Except.ok b) ∧
    ((∃ v, verify_sync ⟨true, true, true, true, true, true, some 5⟩ 3 =
        Except.error (Err.conflict v 3)) ↔
      ((true : Bool) = true ∧ ∃ v, (some 5 : Option Int) = some v ∧ v ≠ 3)) ∧
    start ⟨true, true, true, true, true, true, some 5⟩ "mycluster" 3 = (false, true) := by
  refine ⟨?_, ?_, ?_⟩
  · exact (verify_sync_conflict_exactly ⟨true, true, true, true, true, true, some 3⟩ 3
      "mycluster" rfl rfl rfl rfl rfl).1 (Or.inr (Or.inr rfl))
  · exact (verify_sync_conflict_exactly ⟨true, true, true, true, true, true, some 5⟩ 3
      "mycluster" rfl rfl rfl rfl rfl).2.1
  · exact (verify_sync_conflict_exactly ⟨true, true, true, true, true, true, some 5⟩ 3
      "mycluster" rfl rfl rfl rfl rfl).2.2 (by decide) (Err.conflict 5 3) rfl

/-- C8 is a code bug: a failing rename while writing the local cache
makes `commit` return false and leave `m_version` and
`m_current_config` unchanged, even though `update_config` has already
advanced the shared store's row to version 4 and committed it (and no
rollback is issued); the spec's IOError policy says the sync cycle
should proceed on in-memory state and advance the local version.  This
theorem evaluates the embedded `commit` at the failing input. -/
theorem commit_cache_failure_fails_cycle :
    commit "c1" ⟨true, true, false⟩ true ⟨some (3, "old")⟩ ⟨3, snap0, true⟩ snap1 "new" =
      (⟨some (4, "new")⟩, ⟨3, snap0, true⟩, false, false) := rfl

end ConfigSync
